import Mathlib

/-!
Verification development for the firefly-iii-ai-categorize core (src/App.js).

The inbound JSON payload is embedded structurally: a field that may be
absent in JavaScript is an `Option`; `category_id` distinguishes an absent
field (`none`), an explicit JSON `null` (`some none`), and a set value
(`some (some v)`), because the source compares it with `!== null`.
String truthiness (`!x` in JS) is falsiness of `none` and of the empty
string.

`JobList.js`, the `queue` npm package and the two service clients are not
part of the sources at hand; where a claim depends on them they are
modelled from the spec, and marked so in their doc comments.
-/

namespace FireflyAiCat

/-- One element of `content.transactions` in the webhook body.  All fields
may be absent.  `category_id` is `none` when the field is absent,
`some none` when it is JSON `null`, and `some (some v)` when set. -/
structure Transaction where
  type : Option String := none
  category_id : Option (Option String) := none
  description : Option String := none
  destination_name : Option String := none
  deriving Repr, DecidableEq, Inhabited

/-- The `content` object of the webhook body.  `transactions` is `none`
when the field is absent, mirroring JS `undefined`. -/
structure Content where
  id : Option String := none
  transactions : Option (List Transaction) := none
  deriving Repr, DecidableEq, Inhabited

/-- The webhook request body (`req.body`). -/
structure Payload where
  trigger : Option String := none
  response : Option String := none
  content : Option Content := none
  deriving Repr, DecidableEq, Inhabited

/-- JS string truthiness: absent and `""` are falsy. -/
def truthy : Option String → Bool
  | none => false
  | some s => s ≠ ""

/-- Exceptions that can escape `#handleWebhook`: the `WebhookException`s
thrown by the validation checks, and the engine `TypeError` raised when
`content.transactions` is absent and `transactions[0]` is read. -/
inductive JsError where
  | webhookException (message : String)
  | typeError (message : String)
  deriving Repr, DecidableEq

/-- `e.message`, as read by the `catch` block of `#onWebhook`. -/
def JsError.message : JsError → String
  | .webhookException m => m
  | .typeError m => m

/-- Message of the `TypeError` raised by `req.body.content.transactions[0]`
when `transactions` is `undefined`. -/
def typeErrorMsg : String := "Cannot read properties of undefined (reading '0')"

/-- The validated work item extracted by `#handleWebhook` once every check
has passed: the first transaction's `destination_name` and `description`,
together with the `content.id` and transaction list captured for the
queued closure. -/
structure WorkItem where
  destinationName : String
  description : String
  contentId : String
  transactions : List Transaction
  deriving Repr, DecidableEq

/-- `req.body?.content?.id` (optional chaining). -/
def contentId? (p : Payload) : Option String := p.content.bind Content.id

/-- `req.body?.content?.transactions` (optional chaining). -/
def transactions? (p : Payload) : Option (List Transaction) :=
  p.content.bind Content.transactions

/-- `req.body.content.transactions[0]`, as an `Option`: `none` when the
list is absent or empty. -/
def firstTransaction? (p : Payload) : Option Transaction :=
  (transactions? p).bind List.head?

/-- The validation chain of `#handleWebhook` (src/App.js), check for check:
trigger sentinel, response sentinel, falsy `content?.id`,
`content.transactions?.length === 0` (true only for a present empty list),
the `transactions[0]` read (a `TypeError` when the list is absent),
`type !== "withdrawal"`, `category_id !== null`, falsy `description`,
falsy `destination_name`.  On success it extracts the work item the
source captures for `createJob` and the queued closure. -/
def validate (p : Payload) : Except JsError WorkItem :=
  if p.trigger ≠ some "STORE_TRANSACTION" then
    .error (.webhookException "trigger is not STORE_TRANSACTION. Request will not be processed")
  else if p.response ≠ some "TRANSACTIONS" then
    .error (.webhookException "trigger is not TRANSACTION. Request will not be processed")
  else if ¬ truthy (contentId? p) then
    .error (.webhookException "Missing content.id")
  else if transactions? p = some [] then
    .error (.webhookException "No transactions are available in content.transactions")
  else
    match firstTransaction? p with
    | none => .error (.typeError typeErrorMsg)
    | some t =>
      if t.type ≠ some "withdrawal" then
        .error (.webhookException "content.transactions[0].type has to be 'withdrawal'. Transaction will be ignored.")
      else if t.category_id ≠ some none then
        .error (.webhookException "content.transactions[0].category_id is already set. Transaction will be ignored.")
      else if ¬ truthy t.description then
        .error (.webhookException "Missing content.transactions[0].description")
      else if ¬ truthy t.destination_name then
        .error (.webhookException "Missing content.transactions[0].destination_name")
      else
        .ok { destinationName := t.destination_name.get!
              description := t.description.get!
              contentId := (contentId? p).get!
              transactions := (transactions? p).getD [] }

/-- The Scenario A payload from the spec. -/
def scenarioA : Payload :=
  { trigger := some "STORE_TRANSACTION"
    response := some "TRANSACTIONS"
    content := some
      { id := some "1"
        transactions := some
          [ { type := some "withdrawal"
              category_id := some none
              description := some "coffee"
              destination_name := some "Cafe" } ] } }

example : validate scenarioA =
    .ok { destinationName := "Cafe", description := "coffee", contentId := "1"
          transactions := [ { type := some "withdrawal", category_id := some none
                              description := some "coffee", destination_name := some "Cafe" } ] } := by
  rfl

/-! ## Job registry and webhook handler state -/

/-- Job lifecycle states (spec §4.2). -/
inductive JobStatus where
  | created
  | inProgress
  | finished
  deriving Repr, DecidableEq

/-- A job's `data` object.  A JS key that is not an own property of the
object is `none`; `createJob` receives only the first two keys, the
orchestrator later writes the last three. -/
structure JobData where
  destinationName : Option String := none
  description : Option String := none
  category : Option String := none
  prompt : Option String := none
  response : Option String := none
  deriving Repr, DecidableEq, Inhabited

/-- A job as held by the registry. -/
structure Job where
  id : Nat
  status : JobStatus
  data : JobData
  deriving Repr, DecidableEq

/-- The closure pushed onto the queue by `#handleWebhook`, with the
variables it captures: the created job object, `destinationName`,
`description`, and `req.body.content`'s id and transaction list used by
the later `setCategory` call. -/
structure QueuedClosure where
  job : Job
  destinationName : String
  description : String
  contentId : String
  transactions : List Transaction
  deriving Repr, DecidableEq

/-- The mutable state of the running `App`: the job registry's store and
the task queue's submitted closures. -/
structure AppState where
  jobs : List Job := []
  nextId : Nat := 0
  queue : List QueuedClosure := []
  deriving Repr, DecidableEq

/-- The state at process start: no jobs, no queued work. -/
def initialState : AppState := {}

/-- Modelled from the spec: `JobList.js` is not among the sources.
`createJob(data)` allocates a fresh id, sets status `Created`, and stores
`data` verbatim (spec §4.2). -/
def createJob (d : JobData) (s : AppState) : Job × AppState :=
  let job : Job := { id := s.nextId, status := .created, data := d }
  (job, { s with jobs := s.jobs ++ [job], nextId := s.nextId + 1 })

/-- Modelled from the spec: `setJobInProgress(id)` transitions the job
with that id to `InProgress` (spec §4.2). -/
def setJobInProgress (i : Nat) (s : AppState) : AppState :=
  { s with jobs := s.jobs.map fun j => if j.id = i then { j with status := .inProgress } else j }

/-- Modelled from the spec: `updateJobData(id, newData)` replaces `data`
wholesale (not merged) while preserving `status` (spec §4.2). -/
def updateJobData (i : Nat) (d : JobData) (s : AppState) : AppState :=
  { s with jobs := s.jobs.map fun j => if j.id = i then { j with data := d } else j }

/-- Modelled from the spec: `setJobFinished(id)` transitions the job with
that id to `Finished` (spec §4.2). -/
def setJobFinished (i : Nat) (s : AppState) : AppState :=
  { s with jobs := s.jobs.map fun j => if j.id = i then { j with status := .finished } else j }

/-- Look a job up by id in the registry. -/
def findJob (s : AppState) (i : Nat) : Option Job :=
  s.jobs.find? fun j => j.id = i

/-- `#handleWebhook` (src/App.js): run the validation chain; on success
create the job from the first transaction's `destination_name` and
`description` and push the orchestrator closure onto the queue.  A thrown
error leaves the state untouched (every throw happens before
`createJob`). -/
def handleWebhook (p : Payload) (s : AppState) : Except JsError AppState :=
  match validate p with
  | .error e => .error e
  | .ok w =>
    let (job, s1) := createJob { destinationName := some w.destinationName
                                 description := some w.description } s
    .ok { s1 with queue := s1.queue ++
            [{ job := job, destinationName := w.destinationName
               description := w.description, contentId := w.contentId
               transactions := w.transactions }] }

/-- An HTTP response as produced by `#onWebhook`: `res.send(...)` with the
default status 200, or `res.status(400).send(...)`. -/
structure HttpResponse where
  status : Nat
  body : String
  deriving Repr, DecidableEq

/-- `#onWebhook` (src/App.js): call `#handleWebhook` inside `try`; when it
returns, send "Queued"; when it throws anything, catch it and send status
400 with the exception's message. -/
def onWebhook (p : Payload) (s : AppState) : HttpResponse × AppState :=
  match handleWebhook p s with
  | .ok s' => ({ status := 200, body := "Queued" }, s')
  | .error e => ({ status := 400, body := e.message }, s)

/-- Scenario B: like Scenario A but with an empty transaction list. -/
def scenarioB : Payload :=
  { trigger := some "STORE_TRANSACTION"
    response := some "TRANSACTIONS"
    content := some { id := some "1", transactions := some [] } }

/-- Like Scenario A but with the `transactions` field absent from
`content` altogether. -/
def scenarioNoTransactions : Payload :=
  { trigger := some "STORE_TRANSACTION"
    response := some "TRANSACTIONS"
    content := some { id := some "1", transactions := none } }

/-- Like Scenario A but with the first transaction's `category_id` field
absent (JS `undefined`) instead of `null`. -/
def scenarioCategoryAbsent : Payload :=
  { trigger := some "STORE_TRANSACTION"
    response := some "TRANSACTIONS"
    content := some
      { id := some "1"
        transactions := some
          [ { type := some "withdrawal"
              category_id := none
              description := some "coffee"
              destination_name := some "Cafe" } ] } }

example : validate scenarioB =
    .error (.webhookException "No transactions are available in content.transactions") := by rfl

example : validate scenarioNoTransactions = .error (.typeError typeErrorMsg) := by rfl

example : validate scenarioCategoryAbsent =
    .error (.webhookException "content.transactions[0].category_id is already set. Transaction will be ignored.") := by rfl

/-! ## The classification orchestrator (the queued closure) -/

/-- What `classify` resolves to: `{category, prompt, response}`.  The
`category` is the empty string when classification yields no match, so
that the source's `if (category)` truthiness test fails. -/
structure ClassifyResult where
  category : String
  prompt : String
  response : String
  deriving Repr, DecidableEq

/-- The external collaborators' behaviour during one closure run: the
taxonomy returned by `getCategories()` (a `Map` of name to id, in
insertion order) and the result of `classify`. -/
structure Env where
  categories : List (String × String)
  classifyResult : ClassifyResult
  deriving Repr, DecidableEq

/-- JS `Map.prototype.get`. -/
def mapGet (m : List (String × String)) (k : String) : Option String :=
  (m.find? fun kv => kv.1 = k).map Prod.snd

/-- `Array.from(map.keys())`: the key list in insertion order. -/
def mapKeys (m : List (String × String)) : List String := m.map Prod.fst

/-- The externally visible steps the closure takes, in order. -/
inductive Action where
  | setInProgress (id : Nat)
  | getCategories
  | classifyCall (categoryNames : List String) (destinationName description : String)
  | updateData (id : Nat) (d : JobData)
  | setCategoryCall (contentId : String) (transactions : List Transaction) (categoryId : Option String)
  | setFinished (id : Nat)
  deriving Repr, DecidableEq

/-- The queued closure of `#handleWebhook` (src/App.js), line for line:
mark the job in progress, fetch the categories, classify with the
taxonomy's key list plus the captured `destinationName` and `description`,
build `newData` as a fresh copy of `job.data` extended with `category`,
`prompt` and `response`, replace the job's data with it, commit the
category upstream only when `category` is truthy, and mark the job
finished.  Returns the final state together with the ordered step
trace. -/
def runClosure (env : Env) (c : QueuedClosure) (s : AppState) : AppState × List Action :=
  let s1 := setJobInProgress c.job.id s
  let categories := env.categories
  let cr := env.classifyResult
  let newData : JobData :=
    { c.job.data with
      category := some cr.category, prompt := some cr.prompt, response := some cr.response }
  let s2 := updateJobData c.job.id newData s1
  let commit : List Action :=
    if cr.category ≠ "" then
      [Action.setCategoryCall c.contentId c.transactions (mapGet categories cr.category)]
    else []
  let s3 := setJobFinished c.job.id s2
  (s3, Action.setInProgress c.job.id :: Action.getCategories ::
       Action.classifyCall (mapKeys categories) c.destinationName c.description ::
       Action.updateData c.job.id newData :: (commit ++ [Action.setFinished c.job.id]))

/-! ## The validation chain viewed as an ordered rule list -/

/-- Follows the spec's words (§4.1 and claim C1), not the source: whether
rule `n` of the ordered rule list holds of a payload.  Rule 4 reads
"the transaction list is non-empty", so an absent list does not satisfy
it; rule 6 reads "the first transaction's category is unset", satisfied
both by an absent `category_id` and by an explicit `null`. -/
def specRuleHolds (p : Payload) : Nat → Bool
  | 1 => p.trigger = some "STORE_TRANSACTION"
  | 2 => p.response = some "TRANSACTIONS"
  | 3 => (contentId? p).isSome
  | 4 => (transactions? p).getD [] ≠ []
  | 5 => ((firstTransaction? p).bind Transaction.type) = some "withdrawal"
  | 6 => match firstTransaction? p with
         | some t => t.category_id = none ∨ t.category_id = some none
         | none => false
  | 7 => truthy ((firstTransaction? p).bind Transaction.description)
  | 8 => truthy ((firstTransaction? p).bind Transaction.destination_name)
  | _ => true

/-- Follows the spec's words: the first rule of the ordered chain the
payload violates, if any. -/
def specFirstViolation (p : Payload) : Option Nat :=
  (List.range' 1 8).find? fun n => ! specRuleHolds p n

/-- The message the source attaches to each rule's rejection. -/
def ruleMessage : Nat → String
  | 1 => "trigger is not STORE_TRANSACTION. Request will not be processed"
  | 2 => "trigger is not TRANSACTION. Request will not be processed"
  | 3 => "Missing content.id"
  | 4 => "No transactions are available in content.transactions"
  | 5 => "content.transactions[0].type has to be 'withdrawal'. Transaction will be ignored."
  | 6 => "content.transactions[0].category_id is already set. Transaction will be ignored."
  | 7 => "Missing content.transactions[0].description"
  | 8 => "Missing content.transactions[0].destination_name"
  | _ => ""

/-- Follows the spec's words (claim C1): the rejection message the
fail-fast chain over the spec's rules would report. -/
def specValidateMessage (p : Payload) : Option String :=
  (specFirstViolation p).map ruleMessage

/-- The source's checks of `#handleWebhook` as an ordered list, one entry
per check in source order; entry 5 is the `transactions[0]` read, which
raises a `TypeError` when the list is absent. -/
def codeChecks : List (Payload → Option JsError) :=
  [ fun p => if p.trigger ≠ some "STORE_TRANSACTION" then
      some (.webhookException "trigger is not STORE_TRANSACTION. Request will not be processed") else none,
    fun p => if p.response ≠ some "TRANSACTIONS" then
      some (.webhookException "trigger is not TRANSACTION. Request will not be processed") else none,
    fun p => if ¬ truthy (contentId? p) then
      some (.webhookException "Missing content.id") else none,
    fun p => if transactions? p = some [] then
      some (.webhookException "No transactions are available in content.transactions") else none,
    fun p => if firstTransaction? p = none then
      some (.typeError typeErrorMsg) else none,
    fun p => if ((firstTransaction? p).getD default).type ≠ some "withdrawal" then
      some (.webhookException "content.transactions[0].type has to be 'withdrawal'. Transaction will be ignored.") else none,
    fun p => if ((firstTransaction? p).getD default).category_id ≠ some none then
      some (.webhookException "content.transactions[0].category_id is already set. Transaction will be ignored.") else none,
    fun p => if ¬ truthy ((firstTransaction? p).getD default).description then
      some (.webhookException "Missing content.transactions[0].description") else none,
    fun p => if ¬ truthy ((firstTransaction? p).getD default).destination_name then
      some (.webhookException "Missing content.transactions[0].destination_name") else none ]

/-- The work item the source extracts once every check has passed. -/
def extractWorkItem (p : Payload) : WorkItem :=
  let t := (firstTransaction? p).getD default
  { destinationName := t.destination_name.get!
    description := t.description.get!
    contentId := (contentId? p).get!
    transactions := (transactions? p).getD [] }

/-! ## The sequential task queue -/

/-- The options object passed to the `Queue` constructor. -/
structure QueueConfig where
  timeout : Nat
  concurrency : Nat
  autostart : Bool
  deriving Repr, DecidableEq

/-- The configuration from `run()` in src/App.js:
`new Queue({timeout: 30 * 1000, concurrency: 1, autostart: true})`. -/
def appQueueConfig : QueueConfig :=
  { timeout := 30 * 1000, concurrency := 1, autostart := true }

/-- A task currently executing, with the logical time it began. -/
structure RunningTask where
  task : Nat
  startedAt : Nat
  deriving Repr, DecidableEq

/-- Modelled from the spec: the sequential task queue's state (the `queue`
npm package is not among the sources; spec §4.3).  `submitted` records
every pushed task in arrival order, `started` the tasks in the order
their execution began. -/
structure QueueState where
  now : Nat
  pending : List Nat
  running : List RunningTask
  started : List Nat
  submitted : List Nat
  deriving Repr, DecidableEq

/-- The queue's observable events (spec §4.3). -/
inductive QueueEvent where
  | push (t : Nat)
  | start (t : Nat)
  | success (t : Nat)
  | error (t : Nat)
  | timeout (t : Nat)
  | tick
  deriving Repr, DecidableEq

/-- Modelled from the spec: the queue's small-step semantics (spec §4.3).
`push` submits a task; `start` may begin the oldest pending task only
while fewer than `concurrency` tasks run; `success`/`error` retire a
running task; `timeout` retires a running task and raises the timeout
event only once the configured budget has elapsed; `tick` advances
logical time. -/
inductive QueueStep (cfg : QueueConfig) : QueueState → QueueEvent → QueueState → Prop where
  | push (s : QueueState) (t : Nat) :
      QueueStep cfg s (.push t)
        { s with pending := s.pending ++ [t], submitted := s.submitted ++ [t] }
  | start (s : QueueState) (t : Nat) (rest : List Nat) :
      s.running.length < cfg.concurrency →
      s.pending = t :: rest →
      QueueStep cfg s (.start t)
        { s with pending := rest
                 running := s.running ++ [{ task := t, startedAt := s.now }]
                 started := s.started ++ [t] }
  | success (s : QueueState) (r : RunningTask) :
      r ∈ s.running →
      QueueStep cfg s (.success r.task) { s with running := s.running.erase r }
  | error (s : QueueState) (r : RunningTask) :
      r ∈ s.running →
      QueueStep cfg s (.error r.task) { s with running := s.running.erase r }
  | timeout (s : QueueState) (r : RunningTask) :
      r ∈ s.running →
      r.startedAt + cfg.timeout ≤ s.now →
      QueueStep cfg s (.timeout r.task) { s with running := s.running.erase r }
  | tick (s : QueueState) :
      QueueStep cfg s .tick { s with now := s.now + 1 }

/-- The queue's state when the `App` constructs it. -/
def initialQueueState : QueueState :=
  { now := 0, pending := [], running := [], started := [], submitted := [] }

/-- States the queue can reach from construction under the `App`'s
configuration. -/
inductive QueueReachable : QueueState → Prop where
  | init : QueueReachable initialQueueState
  | step {s s' : QueueState} {ev : QueueEvent} :
      QueueReachable s → QueueStep appQueueConfig s ev s' → QueueReachable s'

/-! ## A heap view of the closure's data update (for the aliasing claim) -/

/-- A heap of JS objects holding job `data`: `cells a` is the object at
address `a`; addresses below `size` are allocated. -/
structure Store where
  size : Nat
  cells : Nat → JobData

/-- `Object.assign({}, obj)`: allocate a fresh object whose fields are
copied from the object at `r`; returns the new heap and the fresh
address. -/
def objectAssignEmpty (st : Store) (r : Nat) : Store × Nat :=
  ({ size := st.size + 1
     cells := fun a => if a = st.size then st.cells r else st.cells a }, st.size)

/-- A field write `obj.f = v` on the object at address `r`: in-place
mutation of that heap cell. -/
def writeCell (st : Store) (r : Nat) (d : JobData) : Store :=
  { st with cells := fun a => if a = r then d else st.cells a }

/-- The data-update block of the queued closure (src/App.js):
`const newData = Object.assign({}, job.data); newData.category = category;
newData.prompt = prompt; newData.response = response;` with `job.data`
living at address `ref`.  Returns the heap after the three field writes
and the address of `newData`. -/
def closureDataUpdate (st : Store) (ref : Nat) (cr : ClassifyResult) : Store × Nat :=
  let (st1, r) := objectAssignEmpty st ref
  let st2 := writeCell st1 r { st1.cells r with category := some cr.category }
  let st3 := writeCell st2 r { st2.cells r with prompt := some cr.prompt }
  let st4 := writeCell st3 r { st3.cells r with response := some cr.response }
  (st4, r)

/-- A job whose `data` is a reference into the heap. -/
structure RefJob where
  id : Nat
  status : JobStatus
  dataRef : Nat
  deriving Repr, DecidableEq

/-- Modelled from the spec: `updateJobData` replaces the job's `data`
reference wholesale with the new object's address, preserving `status`
(spec §4.2; `JobList.js` is not among the sources). -/
def updateJobDataRef (j : RefJob) (r : Nat) : RefJob :=
  { j with dataRef := r }

/-- Like Scenario A but the first transaction has `category_id` absent,
an empty `description` and an empty `destination_name`: it violates the
spec's rules 7 and 8 while satisfying its rule 6. -/
def scenarioMultiViolation : Payload :=
  { trigger := some "STORE_TRANSACTION"
    response := some "TRANSACTIONS"
    content := some
      { id := some "1"
        transactions := some
          [ { type := some "withdrawal"
              category_id := none
              description := some ""
              destination_name := some "" } ] } }

/-- Like Scenario A but with `category_id` set to the value `"9"`. -/
def scenarioCategorySet : Payload :=
  { trigger := some "STORE_TRANSACTION"
    response := some "TRANSACTIONS"
    content := some
      { id := some "1"
        transactions := some
          [ { type := some "withdrawal"
              category_id := some (some "9")
              description := some "coffee"
              destination_name := some "Cafe" } ] } }

/-- A service environment whose classification yields no match: `classify`
resolves with an empty `category`. -/
def envNoMatch : Env :=
  { categories := [("Groceries", "7")]
    classifyResult := { category := "", prompt := "the prompt", response := "the raw response" } }

/-- A service environment whose classification picks `"Groceries"`. -/
def envMatch : Env :=
  { categories := [("Groceries", "7")]
    classifyResult := { category := "Groceries", prompt := "the prompt", response := "the raw response" } }

/-- The `newData` object the closure builds: the job's prior data merged
with `category`, `prompt` and `response` from the classification. -/
def mergedJobData (d : JobData) (cr : ClassifyResult) : JobData :=
  { d with
    category := some cr.category, prompt := some cr.prompt, response := some cr.response }

/-- The closure `#handleWebhook` enqueues for Scenario A. -/
def scenarioAClosure : QueuedClosure :=
  { job := { id := 0, status := .created
             data := { destinationName := some "Cafe", description := some "coffee" } }
    destinationName := "Cafe"
    description := "coffee"
    contentId := "1"
    transactions := [{ type := some "withdrawal", category_id := some none
                       description := some "coffee", destination_name := some "Cafe" }] }

/-- The application state right after Scenario A was accepted. -/
def scenarioAState : AppState :=
  { jobs := [scenarioAClosure.job], nextId := 1, queue := [scenarioAClosure] }

/-- A one-object heap holding a Scenario A job's data, for exercising the
copy-on-write update. -/
def demoStore : Store :=
  { size := 1
    cells := fun _ => { destinationName := some "Cafe", description := some "coffee" } }

/-- Helper: an id-preserving per-element rewrite commutes with `find?` by
id. -/
theorem find?_map_ite (l : List Job) (i : Nat) (f : Job → Job)
    (hf : ∀ j, (f j).id = j.id) :
    (l.map fun j => if j.id = i then f j else j).find? (fun j => j.id = i) =
      (l.find? fun j => j.id = i).map f := by
  induction l with
  | nil => rfl
  | cons j l ih =>
    by_cases h : j.id = i
    · simp [List.find?, h, hf]
    · simp [List.find?, h, ih]

/-- Running the closure on a state leaves every job's registry entry with
its id unchanged, and the targeted job finishes with the merged data. -/
theorem findJob_runClosure (env : Env) (c : QueuedClosure) (s : AppState) :
    findJob (runClosure env c s).1 c.job.id =
      (findJob s c.job.id).map fun j =>
        { id := j.id, status := .finished
          data := { c.job.data with
                    category := some env.classifyResult.category,
                    prompt := some env.classifyResult.prompt,
                    response := some env.classifyResult.response } } := by
  unfold runClosure findJob setJobInProgress updateJobData setJobFinished
  simp only [List.map_map]
  induction s.jobs with
  | nil => rfl
  | cons j l ih =>
    by_cases hj : j.id = c.job.id
    · simp [List.find?, Function.comp, hj]
    · simpa [List.find?, Function.comp, hj] using ih

/-! ## Claim theorems -/

/-- C1 (counterexample): `scenarioMultiViolation` violates rules 7 and 8
of the spec's ordered rule list while satisfying rule 6 (its category is
unset because `category_id` is absent), so under the claim it must be
rejected with rule 7's message; the source instead rejects it at the
`category_id !== null` check with rule 6's message. -/
theorem first_violated_rule_message_cex :
    specRuleHolds scenarioMultiViolation 6 = true ∧
    specRuleHolds scenarioMultiViolation 7 = false ∧
    specRuleHolds scenarioMultiViolation 8 = false ∧
    specValidateMessage scenarioMultiViolation = some "Missing content.transactions[0].description" ∧
    validate scenarioMultiViolation =
      .error (.webhookException "content.transactions[0].category_id is already set. Transaction will be ignored.") ∧
    "content.transactions[0].category_id is already set. Transaction will be ignored." ≠
      "Missing content.transactions[0].description" :=
  ⟨rfl, rfl, rfl, rfl, rfl, by decide⟩

/-- C1 (amended): the validation chain is exactly the fail-fast sweep of
the source's ordered check list — the payload is rejected with the error
of the first check of `codeChecks` that fires, with no aggregation of
later checks, and accepted with the extracted work item when none
fires.  (The source's checks differ from the spec's rule list in that an
absent transaction list passes the `length === 0` check and raises a
`TypeError` at the `transactions[0]` read, and an absent `category_id`
fires the `category_id !== null` check.) -/
theorem validate_is_fail_fast_chain (p : Payload) :
    validate p =
      match codeChecks.findSome? (fun chk => chk p) with
      | some e => .error e
      | none => .ok (extractWorkItem p) := by
  unfold validate codeChecks extractWorkItem
  by_cases h1 : p.trigger = some "STORE_TRANSACTION"
  case neg => simp [List.findSome?_cons, h1]
  case pos =>
  by_cases h2 : p.response = some "TRANSACTIONS"
  case neg => simp [List.findSome?_cons, h1, h2]
  case pos =>
  by_cases h3 : truthy (contentId? p)
  case neg => simp [List.findSome?_cons, h1, h2, h3]
  case pos =>
  by_cases h4 : transactions? p = some []
  case pos => simp [List.findSome?_cons, h1, h2, h3, h4]
  case neg =>
  cases h5 : firstTransaction? p with
  | none => simp [List.findSome?_cons, h1, h2, h3, h4, h5]
  | some t =>
    by_cases h6 : t.type = some "withdrawal"
    case neg => simp [List.findSome?_cons, h1, h2, h3, h4, h5, h6]
    case pos =>
    by_cases h7 : t.category_id = some none
    case neg => simp [List.findSome?_cons, h1, h2, h3, h4, h5, h6, h7]
    case pos =>
    by_cases h8 : truthy t.description
    case neg => simp [List.findSome?_cons, h1, h2, h3, h4, h5, h6, h7, h8]
    case pos =>
    by_cases h9 : truthy t.destination_name
    case neg => simp [List.findSome?_cons, h1, h2, h3, h4, h5, h6, h7, h8, h9]
    case pos => simp [List.findSome?_cons, h1, h2, h3, h4, h5, h6, h7, h8, h9]

/-- C2 (counterexample): a payload whose `content` lacks the transaction
list entirely is rejected, but with the generic `TypeError` message of the
`transactions[0]` read — not with the message of the "transaction list is
non-empty" rule, so the rejection does not name the violated rule. -/
theorem missing_list_not_named_cex :
    validate scenarioNoTransactions = .error (.typeError typeErrorMsg) ∧
    validate scenarioNoTransactions ≠
      .error (.webhookException "No transactions are available in content.transactions") ∧
    typeErrorMsg ≠ "No transactions are available in content.transactions" := by
  refine ⟨rfl, ?_, by decide⟩
  intro hc
  rw [show validate scenarioNoTransactions = Except.error (JsError.typeError typeErrorMsg) from rfl] at hc
  exact JsError.noConfusion (Except.error.inj hc)

/-- C2 (amended): every payload that fails the chain is rejected with a
400 response carrying the thrown error's message and no job is created
and nothing is enqueued (the state is unchanged); but a payload that
passes the first checks while lacking the transaction list entirely is
rejected with the generic `TypeError` message, not with the message of
the "transaction list is non-empty" rule. -/
theorem reject_no_job_created :
    (∀ p s e, handleWebhook p s = .error e →
        onWebhook p s = ({ status := 400, body := e.message }, s)) ∧
    (∀ p, p.trigger = some "STORE_TRANSACTION" → p.response = some "TRANSACTIONS" →
        truthy (contentId? p) → transactions? p = none →
        validate p = .error (.typeError typeErrorMsg)) := by
  constructor
  · intro p s e h
    simp [onWebhook, h]
  · intro p h1 h2 h3 h4
    unfold validate
    simp [h1, h2, h3, h4, firstTransaction?]

/-- C2 (witness): the rejection of Scenario B leaves the state unchanged
and reports the empty-list rule's message; the missing-list payload is
rejected with the `TypeError` message. -/
theorem reject_no_job_created_witness :
    onWebhook scenarioB initialState =
      ({ status := 400, body := "No transactions are available in content.transactions" }, initialState) ∧
    validate scenarioNoTransactions = .error (.typeError typeErrorMsg) :=
  ⟨reject_no_job_created.1 scenarioB initialState
      (.webhookException "No transactions are available in content.transactions") rfl,
   reject_no_job_created.2 scenarioNoTransactions rfl rfl (by decide) rfl⟩

/-- C3: for every payload the chain accepts, exactly one job is appended
to the registry, with status `Created` and data holding exactly the keys
`destinationName` and `description` (the other three keys absent), taken
from the work item extracted from the first transaction; the matching
closure is enqueued. -/
theorem one_job_created_on_valid (p : Payload) (s : AppState) (w : WorkItem)
    (h : validate p = .ok w) :
    (∃ t, firstTransaction? p = some t ∧
        w.destinationName = t.destination_name.get! ∧
        w.description = t.description.get!) ∧
    handleWebhook p s = .ok
      { jobs := s.jobs ++
          [{ id := s.nextId, status := .created
             data := { destinationName := some w.destinationName
                       description := some w.description } }]
        nextId := s.nextId + 1
        queue := s.queue ++
          [{ job := { id := s.nextId, status := .created
                      data := { destinationName := some w.destinationName
                                description := some w.description } }
             destinationName := w.destinationName
             description := w.description
             contentId := w.contentId
             transactions := w.transactions }] } := by
  constructor
  · unfold validate at h
    split_ifs at h
    cases h5 : firstTransaction? p with
    | none => rw [h5] at h; exact Except.noConfusion h
    | some t =>
      rw [h5] at h
      dsimp only at h
      split_ifs at h
      injection h with h
      exact ⟨t, rfl, by rw [← h], by rw [← h]⟩
  · unfold handleWebhook createJob
    rw [h]

/-- C3 (witness): Scenario A creates exactly one job with the two data
keys `destinationName = "Cafe"` and `description = "coffee"`. -/
theorem one_job_created_on_valid_witness :
    handleWebhook scenarioA initialState = .ok
      { jobs := [{ id := 0, status := .created
                   data := { destinationName := some "Cafe", description := some "coffee" } }]
        nextId := 1
        queue := [{ job := { id := 0, status := .created
                             data := { destinationName := some "Cafe", description := some "coffee" } }
                    destinationName := "Cafe"
                    description := "coffee"
                    contentId := "1"
                    transactions := [{ type := some "withdrawal", category_id := some none
                                       description := some "coffee", destination_name := some "Cafe" }] }] } :=
  (one_job_created_on_valid scenarioA initialState
    { destinationName := "Cafe", description := "coffee", contentId := "1"
      transactions := [{ type := some "withdrawal", category_id := some none
                         description := some "coffee", destination_name := some "Cafe" }] }
    rfl).2

/-- C6 (counterexample): the first transaction of `scenarioCategoryAbsent`
has `category_id` absent, so its category is unset, yet the chain rejects
the payload at the category check because `undefined !== null`. -/
theorem category_absent_rejected_cex :
    firstTransaction? scenarioCategoryAbsent =
      some { type := some "withdrawal", category_id := none
             description := some "coffee", destination_name := some "Cafe" } ∧
    validate scenarioCategoryAbsent =
      .error (.webhookException "content.transactions[0].category_id is already set. Transaction will be ignored.") :=
  ⟨rfl, rfl⟩

/-- C6 (amended): once the four preceding checks pass and the first
transaction is a withdrawal, the category check rejects exactly when its
`category_id` is anything other than an explicit `null`: a set value is
rejected, an explicit `null` passes, and an absent `category_id` is
rejected as well although its category is unset. -/
theorem category_check_fires_iff (p : Payload) (t : Transaction)
    (h1 : p.trigger = some "STORE_TRANSACTION") (h2 : p.response = some "TRANSACTIONS")
    (h3 : truthy (contentId? p)) (h4 : firstTransaction? p = some t)
    (h5 : t.type = some "withdrawal") :
    validate p =
        .error (.webhookException "content.transactions[0].category_id is already set. Transaction will be ignored.")
      ↔ t.category_id ≠ some none := by
  have hne : transactions? p ≠ some [] := by
    intro hc
    rw [firstTransaction?, hc] at h4
    simp at h4
  unfold validate
  by_cases h6 : t.category_id = some none
  · by_cases h7 : truthy t.description
    · by_cases h8 : truthy t.destination_name
      · simp [h1, h2, h3, hne, h4, h5, h6, h7, h8]
      · simp [h1, h2, h3, hne, h4, h5, h6, h7, h8]
    · simp [h1, h2, h3, hne, h4, h5, h6, h7]
  · simp [h1, h2, h3, hne, h4, h5, h6]

/-- C6 (witness): a first transaction whose `category_id` carries the
value `"9"` is rejected at the category check. -/
theorem category_check_fires_iff_witness :
    validate scenarioCategorySet =
      .error (.webhookException "content.transactions[0].category_id is already set. Transaction will be ignored.") :=
  (category_check_fires_iff scenarioCategorySet
      { type := some "withdrawal", category_id := some (some "9")
        description := some "coffee", destination_name := some "Cafe" }
      rfl rfl rfl rfl rfl).mpr (by decide)

/-- C9: for every payload rejected by a validation rule, the endpoint
responds with status 400 and the rule's message as plain-text body, and
the state is unchanged — no job exists and nothing is enqueued; for every
payload that passes validation, one job is created, the matching closure
is enqueued, and the response is the plain-text acknowledgement
"Queued". -/
theorem webhook_endpoint_responses :
    (∀ p s m, validate p = .error (.webhookException m) →
        onWebhook p s = ({ status := 400, body := m }, s)) ∧
    (∀ p s w, validate p = .ok w →
        ∃ c : QueuedClosure,
          (onWebhook p s).1 = { status := 200, body := "Queued" } ∧
          (onWebhook p s).2.queue = s.queue ++ [c] ∧
          (onWebhook p s).2.jobs = s.jobs ++ [c.job]) := by
  constructor
  · intro p s m h
    simp [onWebhook, handleWebhook, h, JsError.message]
  · intro p s w h
    refine ⟨{ job := { id := s.nextId, status := .created
                       data := { destinationName := some w.destinationName
                                 description := some w.description } }
              destinationName := w.destinationName, description := w.description
              contentId := w.contentId, transactions := w.transactions }, ?_, ?_, ?_⟩ <;>
      simp [onWebhook, handleWebhook, createJob, h]

/-- C9 (witness): Scenario B gets a 400 with the empty-list rule's
message and changes nothing; Scenario A gets the "Queued" acknowledgement
with one closure enqueued and its job created. -/
theorem webhook_endpoint_responses_witness :
    onWebhook scenarioB initialState =
      ({ status := 400, body := "No transactions are available in content.transactions" }, initialState) ∧
    ∃ c : QueuedClosure,
      (onWebhook scenarioA initialState).1 = { status := 200, body := "Queued" } ∧
      (onWebhook scenarioA initialState).2.queue = initialState.queue ++ [c] ∧
      (onWebhook scenarioA initialState).2.jobs = initialState.jobs ++ [c.job] :=
  ⟨webhook_endpoint_responses.1 scenarioB initialState
      "No transactions are available in content.transactions" rfl,
   webhook_endpoint_responses.2 scenarioA initialState
      { destinationName := "Cafe", description := "coffee", contentId := "1"
        transactions := [{ type := some "withdrawal", category_id := some none
                           description := some "coffee", destination_name := some "Cafe" }] }
      rfl⟩

/-- C10: `#onWebhook` catches every exception thrown during synchronous
handling — validation failures and runtime errors alike — and responds
with status 400 carrying the exception's message while leaving the state
unchanged, so no job is created; in particular the `TypeError` raised
when `content.transactions` is absent and the first transaction is
accessed is caught the same way.  (`onWebhook` is a total function into a
response, so no exception propagates out of the handler.) -/
theorem handler_catches_every_exception :
    (∀ p s e, handleWebhook p s = .error e →
        onWebhook p s = ({ status := 400, body := e.message }, s)) ∧
    onWebhook scenarioNoTransactions initialState =
      ({ status := 400, body := typeErrorMsg }, initialState) := by
  constructor
  · intro p s e h
    simp [onWebhook, h]
  · rfl

/-- C10 (witness): the category-absent payload's `WebhookException` is
caught and surfaced as a 400 with its message, the state untouched. -/
theorem handler_catches_every_exception_witness :
    onWebhook scenarioCategoryAbsent initialState =
      ({ status := 400
         body := "content.transactions[0].category_id is already set. Transaction will be ignored." },
       initialState) :=
  handler_catches_every_exception.1 scenarioCategoryAbsent initialState
    (.webhookException "content.transactions[0].category_id is already set. Transaction will be ignored.")
    rfl

/-- C4: the enqueued closure performs, in this order: mark the job
`InProgress`, fetch the taxonomy, classify with the taxonomy's category
names plus the captured `destinationName` and `description`, replace the
job's data with its prior data merged with `category`, `prompt` and
`response`, commit the category (resolved through the taxonomy, against
the original content id and transaction list) if and only if the chosen
category is non-empty, and finally mark the job `Finished` — so a run
whose classification returns an empty category still finishes, with the
commit step absent from its trace. -/
theorem orchestrator_step_order (env : Env) (c : QueuedClosure) (s : AppState)
    (h : findJob s c.job.id = some c.job) :
    (runClosure env c s).2 =
      [Action.setInProgress c.job.id, Action.getCategories,
       Action.classifyCall (mapKeys env.categories) c.destinationName c.description,
       Action.updateData c.job.id (mergedJobData c.job.data env.classifyResult)]
      ++ (if env.classifyResult.category ≠ "" then
            [Action.setCategoryCall c.contentId c.transactions
               (mapGet env.categories env.classifyResult.category)]
          else [])
      ++ [Action.setFinished c.job.id] ∧
    ((∃ cid txs catid, Action.setCategoryCall cid txs catid ∈ (runClosure env c s).2) ↔
        env.classifyResult.category ≠ "") ∧
    findJob (runClosure env c s).1 c.job.id =
      some { id := c.job.id, status := .finished
             data := mergedJobData c.job.data env.classifyResult } := by
  refine ⟨?_, ?_, ?_⟩
  · by_cases hc : env.classifyResult.category = "" <;>
      simp [runClosure, mergedJobData, hc]
  · constructor
    · rintro ⟨cid, txs, catid, hmem⟩
      by_contra hc
      simp [runClosure, hc] at hmem
    · intro hc
      exact ⟨c.contentId, c.transactions, mapGet env.categories env.classifyResult.category,
        by simp [runClosure, hc]⟩
  · rw [findJob_runClosure env c s, h]
    rfl

/-- C4 (witness): running the Scenario A closure under the no-match
environment produces the five-step trace with no commit action and leaves
the job finished with the merged data. -/
theorem orchestrator_step_order_witness :
    (runClosure envNoMatch scenarioAClosure scenarioAState).2 =
      [Action.setInProgress 0, Action.getCategories,
       Action.classifyCall ["Groceries"] "Cafe" "coffee",
       Action.updateData 0 (mergedJobData scenarioAClosure.job.data envNoMatch.classifyResult)]
      ++ [] ++ [Action.setFinished 0] ∧
    ((∃ cid txs catid,
        Action.setCategoryCall cid txs catid ∈ (runClosure envNoMatch scenarioAClosure scenarioAState).2) ↔
      envNoMatch.classifyResult.category ≠ "") ∧
    findJob (runClosure envNoMatch scenarioAClosure scenarioAState).1 0 =
      some { id := 0, status := .finished
             data := mergedJobData scenarioAClosure.job.data envNoMatch.classifyResult } :=
  orchestrator_step_order envNoMatch scenarioAClosure scenarioAState rfl

/-- C7 (counterexample): for the accepted Scenario A job run under a
classification that yields no match (empty `category`), the finished
job's `category` key is present and holds the empty string — it does not
remain absent. -/
theorem category_key_present_cex :
    envNoMatch.classifyResult.category = "" ∧
    (findJob (runClosure envNoMatch scenarioAClosure scenarioAState).1 0).map
        (fun j => j.data.category) = some (some "") :=
  ⟨rfl, rfl⟩

/-- C7 (amended): `category`, `prompt` and `response` are absent from a
job's data at creation and stay so until the orchestrator populates them;
the orchestrator always writes all three keys, so after it completes on a
job whose classification yields no match, `category` is present with the
empty value rather than remaining absent. -/
theorem data_keys_populated_by_orchestrator :
    (∀ p s w, validate p = .ok w →
        (handleWebhook p s).map (fun s' => (s'.jobs.drop s.jobs.length).map fun j =>
            (j.data.category, j.data.prompt, j.data.response)) =
          .ok [(none, none, none)]) ∧
    (∀ env c s, findJob s c.job.id = some c.job →
        (findJob (runClosure env c s).1 c.job.id).map (fun j => j.data.category) =
          some (some env.classifyResult.category) ∧
        (findJob (runClosure env c s).1 c.job.id).map (fun j => j.data.prompt) =
          some (some env.classifyResult.prompt) ∧
        (findJob (runClosure env c s).1 c.job.id).map (fun j => j.data.response) =
          some (some env.classifyResult.response)) := by
  constructor
  · intro p s w h
    unfold handleWebhook createJob
    rw [h]
    simp only [Except.map, List.drop_left]
    rfl
  · intro env c s h
    rw [findJob_runClosure env c s, h]
    exact ⟨rfl, rfl, rfl⟩

/-- C7 (witness): the Scenario A job is created with the three keys
absent, and the no-match run leaves `category` present with the empty
string. -/
theorem data_keys_populated_witness :
    (handleWebhook scenarioA initialState).map
        (fun s' => (s'.jobs.drop initialState.jobs.length).map fun j =>
          (j.data.category, j.data.prompt, j.data.response)) =
      .ok [(none, none, none)] ∧
    ((findJob (runClosure envNoMatch scenarioAClosure scenarioAState).1 scenarioAClosure.job.id).map
        (fun j => j.data.category) = some (some envNoMatch.classifyResult.category) ∧
     (findJob (runClosure envNoMatch scenarioAClosure scenarioAState).1 scenarioAClosure.job.id).map
        (fun j => j.data.prompt) = some (some envNoMatch.classifyResult.prompt) ∧
     (findJob (runClosure envNoMatch scenarioAClosure scenarioAState).1 scenarioAClosure.job.id).map
        (fun j => j.data.response) = some (some envNoMatch.classifyResult.response)) :=
  ⟨data_keys_populated_by_orchestrator.1 scenarioA initialState
      { destinationName := "Cafe", description := "coffee", contentId := "1"
        transactions := [{ type := some "withdrawal", category_id := some none
                           description := some "coffee", destination_name := some "Cafe" }] }
      rfl,
   data_keys_populated_by_orchestrator.2 envNoMatch scenarioAClosure scenarioAState rfl⟩

/-- Helper: every reachable queue state keeps at most `concurrency` tasks
running and splits its submission history into the started tasks followed
by the still-pending ones. -/
theorem queue_invariant (s : QueueState) (h : QueueReachable s) :
    s.running.length ≤ appQueueConfig.concurrency ∧
      s.submitted = s.started ++ s.pending := by
  induction h with
  | init => simp [initialQueueState]
  | step hr hstep ih =>
    cases hstep with
    | push t =>
      refine ⟨by simpa using ih.1, ?_⟩
      simp [ih.2]
    | start t rest hlt hp =>
      refine ⟨?_, ?_⟩
      · simp only [List.length_append, List.length_cons, List.length_nil]
        omega
      · simp [ih.2, hp]
    | success r hmem =>
      exact ⟨le_trans (List.length_erase_le r _) ih.1, ih.2⟩
    | error r hmem =>
      exact ⟨le_trans (List.length_erase_le r _) ih.1, ih.2⟩
    | timeout r hmem htime =>
      exact ⟨le_trans (List.length_erase_le r _) ih.1, ih.2⟩
    | tick => exact ih

/-- C5: `run()` configures the queue with a 30-second per-item timeout,
concurrency 1 and autostart; under that configuration every reachable
queue state has at most one task executing (so no two executions overlap
at any instant), the order in which tasks start is a prefix of the
submission order (FIFO), pushing a task onto an idle queue immediately
enables it to start with no separate start call (autostart), and a
timeout event is raised only for a running task whose 30000 ms budget has
elapsed. -/
theorem queue_sequential_fifo_timeout :
    appQueueConfig = { timeout := 30000, concurrency := 1, autostart := true } ∧
    (∀ s, QueueReachable s → s.running.length ≤ 1 ∧ s.started <+: s.submitted) ∧
    (∀ s t s', s.running = [] → s.pending = [] →
        QueueStep appQueueConfig s (.push t) s' →
        ∃ s'', QueueStep appQueueConfig s' (.start t) s'') ∧
    (∀ s t s', QueueStep appQueueConfig s (.timeout t) s' →
        ∃ r : RunningTask, r ∈ s.running ∧ r.task = t ∧ r.startedAt + 30000 ≤ s.now) := by
  refine ⟨rfl, ?_, ?_, ?_⟩
  · intro s h
    obtain ⟨h1, h2⟩ := queue_invariant s h
    exact ⟨h1, s.pending, h2.symm⟩
  · intro s t s' hrun hpend hstep
    cases hstep with
    | push =>
      refine ⟨_, QueueStep.start _ t [] ?_ ?_⟩
      · simp [hrun, appQueueConfig]
      · simp [hpend]
  · intro s t s' hstep
    cases hstep with
    | timeout r hmem htime => exact ⟨r, hmem, rfl, htime⟩

/-- C5 (witness): at the initial state at most one task runs and the
start order prefixes the submission order; pushing task 7 onto the idle
initial queue immediately enables its start. -/
theorem queue_sequential_fifo_timeout_witness :
    (initialQueueState.running.length ≤ 1 ∧
      initialQueueState.started <+: initialQueueState.submitted) ∧
    (∃ s'', QueueStep appQueueConfig
        { initialQueueState with pending := [] ++ [7], submitted := [] ++ [7] }
        (.start 7) s'') ∧
    (∃ r : RunningTask,
        r ∈ [RunningTask.mk 5 0] ∧ r.task = 5 ∧ r.startedAt + 30000 ≤ 30000) :=
  ⟨queue_sequential_fifo_timeout.2.1 initialQueueState QueueReachable.init,
   queue_sequential_fifo_timeout.2.2.1 initialQueueState 7 _ rfl rfl
     (QueueStep.push initialQueueState 7),
   queue_sequential_fifo_timeout.2.2.2
     { now := 30000, pending := [], running := [RunningTask.mk 5 0]
       started := [5], submitted := [5] } 5 _
     (QueueStep.timeout _ (RunningTask.mk 5 0) (by simp) (by decide))⟩

/-- C8: the closure's data update copies the job's data into a fresh
object and mutates only the copy, and `updateJobData` swaps the job's
data reference wholesale: the heap cell a prior reader snapshot points to
is unchanged by the update, the new object lives at a different address
and carries the prior data merged with the classification artifacts, and
the reference swap preserves the job's status. -/
theorem update_is_copy_on_write (st : Store) (ref : Nat) (cr : ClassifyResult)
    (h : ref < st.size) :
    (closureDataUpdate st ref cr).1.cells ref = st.cells ref ∧
    (closureDataUpdate st ref cr).2 ≠ ref ∧
    (closureDataUpdate st ref cr).1.cells (closureDataUpdate st ref cr).2 =
      mergedJobData (st.cells ref) cr ∧
    (∀ j : RefJob, (updateJobDataRef j (closureDataUpdate st ref cr).2).dataRef =
        (closureDataUpdate st ref cr).2 ∧
      (updateJobDataRef j (closureDataUpdate st ref cr).2).status = j.status) := by
  have hne : ref ≠ st.size := Nat.ne_of_lt h
  refine ⟨?_, ?_, ?_, ?_⟩
  · simp [closureDataUpdate, objectAssignEmpty, writeCell, hne]
  · simp only [closureDataUpdate, objectAssignEmpty]
    omega
  · simp [closureDataUpdate, objectAssignEmpty, writeCell, mergedJobData]
  · intro j
    exact ⟨rfl, rfl⟩

/-- C8 (witness): updating the one-object demo heap leaves the original
cell intact and yields a fresh address carrying the merged copy. -/
theorem update_is_copy_on_write_witness :
    (closureDataUpdate demoStore 0 envMatch.classifyResult).1.cells 0 = demoStore.cells 0 ∧
    (closureDataUpdate demoStore 0 envMatch.classifyResult).2 ≠ 0 ∧
    (closureDataUpdate demoStore 0 envMatch.classifyResult).1.cells
        (closureDataUpdate demoStore 0 envMatch.classifyResult).2 =
      mergedJobData (demoStore.cells 0) envMatch.classifyResult ∧
    (∀ j : RefJob,
        (updateJobDataRef j (closureDataUpdate demoStore 0 envMatch.classifyResult).2).dataRef =
          (closureDataUpdate demoStore 0 envMatch.classifyResult).2 ∧
        (updateJobDataRef j (closureDataUpdate demoStore 0 envMatch.classifyResult).2).status =
          j.status) :=
  update_is_copy_on_write demoStore 0 envMatch.classifyResult (by decide)

end FireflyAiCat
